import Mathlib

/-
Verification of the gonow client library (src/gnow.go).

The library is a thin Go wrapper over the external C client library
(nowclient.h).  We shallow-embed the Go code as follows:

* The external C library is an abstract, deterministic oracle `NowDB ω`
  over an abstract library state `ω`: each C entry point the Go code calls
  becomes a field of the structure, threaded through the state.  C handles
  (`nowdb_con_t`, `nowdb_result_t`, `nowdb_cursor_t`, `nowdb_row_t`) are
  all mutually castable pointers in the source, so they are embedded
  uniformly as `Nat`; a nilable handle is `Option Nat` with `none` = nil.

* Each Go method that mutates its receiver becomes a pure function
  returning the updated receiver together with its Go return values, the
  list of C release calls it performed (used to state the claims about
  resource release), and the new oracle state.

* The field-decoding layer (`Row.Count`, `Row.Field` and the typed
  accessors) reads the current row buffer through a pointer; it is
  embedded over the pointed-to buffer contents (`List CField`), with the
  collaborator call `nowdb_row_field` modelled concretely from its
  documented interface (out-of-range index yields the absent tag).

* Go's dynamically typed field value (`interface` value) becomes the
  tagged variant `GoValue`; 64-bit floats are carried by their bit
  pattern (no float arithmetic occurs in the source).

src/unnamed/part_000 is an earlier draft of the same package; src/gnow.go
is the version the claims cite and is taken as the authority where the
two differ (error types, Field, String).
-/

/-- success status code (`OK` in the source). -/
def OK : Int := 0

/-- the end-of-stream status code (`_eof` in the source). -/
def eofCode : Int := 8

/-- result-type tag `status` (0x21). -/
def statusTag : Int := 0x21

/-- result-type tag `report` (0x22). -/
def reportTag : Int := 0x22

/-- result-type tag `row` (0x23). -/
def rowTag : Int := 0x23

/-- result-type tag `cursor` (0x24). -/
def cursorTag : Int := 0x24

/-- field-type tag `NOTHING` (NULL). -/
def NOTHING : Int := 0

/-- field-type tag `TEXT`. -/
def TEXT : Int := 1

/-- field-type tag `DATE`. -/
def DATE : Int := 2

/-- field-type tag `TIME`. -/
def TIME : Int := 3

/-- field-type tag `FLOAT`. -/
def FLOAT : Int := 4

/-- field-type tag `INT`. -/
def INT : Int := 5

/-- field-type tag `UINT`. -/
def UINT : Int := 6

/-- field-type tag `BOOL`. -/
def BOOL : Int := 9

/-- The Go `error` interface as returned by this package.  gnow.go defines
exactly three concrete error struct types: `ClientError`, `TypeError` and
`ServerError`; one constructor per concrete type, each carrying its
`what` string. -/
inductive GoError where
  | clientError (what : String)
  | typeError (what : String)
  | serverError (what : String)
deriving DecidableEq, Repr

/-- `var EOF = eof()`: the end-of-file error value.  In gnow.go `eof()`
returns a `ClientError` with message "end-of-file". -/
def EOF : GoError := GoError.clientError "end-of-file"

/-- `var NULL = null()`: the null-value error.  In gnow.go `null()` returns
a `TypeError` with message "NULL". -/
def NULL : GoError := GoError.typeError "NULL"

/-- The C calls that close or release a resource, recorded as a trace by
the embedded operations so that claims about resource release can be
stated. -/
inductive CCall where
  | connectionClose (h : Nat)
  | connectionDestroy (h : Nat)
  | resultDestroy (h : Nat)
  | cursorClose (h : Nat)
deriving DecidableEq, Repr

/-- The external C client library, as the deterministic oracle the Go code
calls into.  `ω` is the abstract library/server state.  Arguments that the
Go code may pass as nil pointers are `Option`-typed. -/
structure NowDB (ω : Type) where
  connect : String → String → Option String → Option String → Int → ω → Int × Option Nat × ω
  connectionClose : Nat → ω → Int × ω
  connectionDestroy : Nat → ω → ω
  execStatement : Option Nat → String → ω → Int × Option Nat × ω
  resultType : Nat → ω → Int
  resultStatus : Nat → ω → Int
  resultErrcode : Nat → ω → Int
  resultDetails : Nat → ω → Option String
  resultDestroy : Nat → ω → ω
  cursorOpen : Option Nat → ω → Int × Option Nat × ω
  cursorRow : Option Nat → ω → Option Nat
  cursorClose : Nat → ω → Int × ω
  rowNext : Nat → ω → Int × ω
  cursorFetch : Nat → ω → Int × ω

/-- Go `type Connection struct { cc C.nowdb_con_t }`. -/
structure Connection where
  cc : Option Nat
deriving DecidableEq, Repr

/-- Go `type Result struct { cs C.nowdb_result_t; t int }`. -/
structure Result where
  cs : Option Nat
  t : Int
deriving DecidableEq, Repr

/-- Go `type Cursor struct { cc C.nowdb_cursor_t; row C.nowdb_row_t; first bool }`. -/
structure Cursor where
  cc : Option Nat
  row : Option Nat
  first : Bool
deriving DecidableEq, Repr

/-- The Go `Row` struct as produced by `Fetch`: it wraps the C row pointer
(`cr C.nowdb_row_t`).  Field decoding over the pointed-to buffer is
embedded separately by `Row` below. -/
structure RowPtr where
  cr : Option Nat
deriving DecidableEq, Repr

/-- Result of `Connect`: the Go return values plus the new library state. -/
structure ConnectOut (ω : Type) where
  conn : Option Connection
  err : Option GoError
  w : ω

/-- Result of `Connection.Close`: updated receiver, Go return value,
release-call trace, new library state. -/
structure CloseOut (ω : Type) where
  conn : Connection
  err : Option GoError
  calls : List CCall
  w : ω

/-- Result of `Connection.Execute`. -/
structure ExecOut (ω : Type) where
  res : Option Result
  err : Option GoError
  calls : List CCall
  w : ω

/-- Result of `Result.Destroy`. -/
structure DestroyOut (ω : Type) where
  res : Result
  calls : List CCall
  w : ω

/-- Result of `Result.Open`. -/
structure OpenOut (ω : Type) where
  res : Result
  cur : Option Cursor
  err : Option GoError
  calls : List CCall
  w : ω

/-- Result of `Cursor.Fetch`. -/
structure FetchOut (ω : Type) where
  cur : Cursor
  row : Option RowPtr
  err : Option GoError
  calls : List CCall
  w : ω

/-- Result of `Cursor.Close`. -/
structure CCloseOut (ω : Type) where
  cur : Cursor
  calls : List CCall
  w : ω

/-- `func Connect(server string, port string, usr string, pwd string)
(*Connection, error)`.  `global_is_initialised` is passed explicitly.
Note the source passes nil, nil for the credentials of `nowdb_connect`. -/
def Connect {ω : Type} (db : NowDB ω) (global_is_initialised : Bool)
    (server port usr pwd : String) (w : ω) : ConnectOut ω :=
  if ¬ global_is_initialised then
    { conn := none, err := some (GoError.clientError "Client is not initialised"), w := w }
  else
    match db.connect server port none none 0 w with
    | (rc, cc, w1) =>
      if rc ≠ OK then
        { conn := none, err := some (GoError.serverError (toString rc)), w := w1 }
      else
        { conn := some { cc := cc }, err := none, w := w1 }

/-- `func (c *Connection) Close() error`. -/
def Connection.Close {ω : Type} (db : NowDB ω) (c : Connection) (w : ω) : CloseOut ω :=
  match c.cc with
  | none => { conn := c, err := none, calls := [], w := w }
  | some h =>
    match db.connectionClose h w with
    | (rc, w1) =>
      if rc ≠ OK then
        { conn := { cc := none }, err := some (GoError.serverError (toString rc)),
          calls := [CCall.connectionClose h, CCall.connectionDestroy h],
          w := db.connectionDestroy h w1 }
      else
        { conn := { cc := none }, err := none, calls := [CCall.connectionClose h], w := w1 }

/-- `func r2err(r C.nowdb_result_t) ServerError`: formats errcode and
details; `C.GoString(nil)` is the empty string. -/
def r2err {ω : Type} (db : NowDB ω) (h : Nat) (w : ω) : GoError :=
  GoError.serverError (toString (db.resultErrcode h w) ++ ": " ++ (db.resultDetails h w).getD "")

/-- `func (r *Result) Destroy()`. -/
def Result.Destroy {ω : Type} (db : NowDB ω) (r : Result) (w : ω) : DestroyOut ω :=
  match r.cs with
  | none => { res := r, calls := [], w := w }
  | some h => { res := { r with cs := none }, calls := [CCall.resultDestroy h],
                w := db.resultDestroy h w }

/-- `func (c *Connection) Execute(stmt string) (*Result, error)`. -/
def Connection.Execute {ω : Type} (db : NowDB ω) (c : Connection) (stmt : String) (w : ω) :
    ExecOut ω :=
  match db.execStatement c.cc stmt w with
  | (rc, cr, w1) =>
    match cr with
    | none => { res := none, err := some (GoError.serverError (toString rc)), calls := [], w := w1 }
    | some h =>
      if rc ≠ OK then
        { res := none, err := some (GoError.serverError (toString rc)), calls := [], w := w1 }
      else
        let t := db.resultType h w1
        if db.resultStatus h w1 ≠ OK then
          let e := r2err db h w1
          let d := Result.Destroy db { cs := some h, t := t } w1
          { res := none, err := some e, calls := d.calls, w := d.w }
        else
          { res := some { cs := some h, t := t }, err := none, calls := [], w := w1 }

/-- `func (r *Result) Open() (*Cursor, error)`.  On the cursor-kind path a
failing `nowdb_cursor_open` returns before `r.cs` is cleared; on success
`r.cs = nil` hands the resource to the new cursor.  Note the kind tag
`r.t` is never cleared. -/
def Result.Open {ω : Type} (db : NowDB ω) (r : Result) (w : ω) : OpenOut ω :=
  if r.t ≠ cursorTag ∧ r.t ≠ rowTag then
    { res := r, cur := none, err := some (GoError.clientError "not a cursor"), calls := [], w := w }
  else if r.t = cursorTag then
    match db.cursorOpen r.cs w with
    | (rc, ccc, w1) =>
      if rc ≠ OK then
        { res := r, cur := none, err := some (GoError.clientError (toString rc)), calls := [], w := w1 }
      else
        { res := { r with cs := none },
          cur := some { cc := ccc, row := db.cursorRow ccc w1, first := true },
          err := none, calls := [], w := w1 }
  else
    { res := { r with cs := none },
      cur := some { cc := none, row := r.cs, first := true },
      err := none, calls := [], w := w }

/-- `func (c *Cursor) Close()`. -/
def Cursor.Close {ω : Type} (db : NowDB ω) (c : Cursor) (w : ω) : CCloseOut ω :=
  let s1 : Cursor × List CCall × ω :=
    match c.row with
    | some rh =>
      if c.cc = none then
        ({ c with row := none }, [CCall.resultDestroy rh], db.resultDestroy rh w)
      else
        ({ c with row := none }, [], w)
    | none => (c, [], w)
  match s1 with
  | (c1, calls1, w1) =>
    match c1.cc with
    | some hc =>
      match db.cursorClose hc w1 with
      | (rc, w2) =>
        if rc ≠ OK then
          { cur := { c1 with cc := none },
            calls := calls1 ++ [CCall.cursorClose hc, CCall.resultDestroy hc],
            w := db.resultDestroy hc w2 }
        else
          { cur := { c1 with cc := none }, calls := calls1 ++ [CCall.cursorClose hc], w := w2 }
    | none => { cur := c1, calls := calls1, w := w1 }

/-- The second half of `Cursor.Fetch` (from `if c.cc != nil` on), reached
when no row buffer remains; `acc` is the trace accumulated by the first
half. -/
def fetchFromCursor {ω : Type} (db : NowDB ω) (c : Cursor) (acc : List CCall) (w : ω) :
    FetchOut ω :=
  match c.cc with
  | some hc =>
    match db.cursorFetch hc w with
    | (rc0, w1) =>
      let rc := if rc0 = OK then db.resultErrcode hc w1 else rc0
      if rc ≠ OK then
        if rc = eofCode then
          { cur := c, row := none, err := some EOF, calls := acc, w := w1 }
        else
          { cur := c, row := none, err := some (r2err db hc w1), calls := acc, w := w1 }
      else
        let nr := db.cursorRow (some hc) w1
        { cur := { c with row := nr }, row := some { cr := nr }, err := none, calls := acc, w := w1 }
  | none => { cur := c, row := none, err := some EOF, calls := acc, w := w }

/-- `func (c *Cursor) Fetch() (*Row, error)`. -/
def Cursor.Fetch {ω : Type} (db : NowDB ω) (c : Cursor) (w : ω) : FetchOut ω :=
  match c.row with
  | some rh =>
    if c.first then
      { cur := { c with first := false }, row := some { cr := some rh }, err := none,
        calls := [], w := w }
    else
      match db.rowNext rh w with
      | (rc, w1) =>
        if rc ≠ OK then
          if c.cc = none then
            fetchFromCursor db { c with row := none } [CCall.resultDestroy rh]
              (db.resultDestroy rh w1)
          else
            fetchFromCursor db { c with row := none } [] w1
        else
          { cur := c, row := some { cr := some rh }, err := none, calls := [], w := w1 }
  | none => fetchFromCursor db c [] w

/-- The status code `Cursor.Fetch` derives from one `nowdb_cursor_fetch`
call on handle `h` (falling back to the result errcode when the fetch
itself reports OK). -/
def effFetchRc {ω : Type} (db : NowDB ω) (h : Nat) (w : ω) : Int :=
  if (db.cursorFetch h w).1 = OK then db.resultErrcode h (db.cursorFetch h w).2
  else (db.cursorFetch h w).1

/-- A cursor whose iteration has terminated: the row buffer is gone and
any remaining cursor resource persistently reports end-of-stream.  Both a
closed cursor (`row = cc = none`) and a naturally exhausted one (row
buffer cleared, collaborator at end-of-stream) satisfy this. -/
def Exhausted {ω : Type} (db : NowDB ω) (c : Cursor) : Prop :=
  c.row = none ∧ ∀ h, c.cc = some h → ∀ w, effFetchRc db h w = eofCode

/-- A field as stored in a row buffer C-side: its type tag together with a
type-correct payload.  `untagged t` stands for a field whose tag `t` is
none of the recognized tags (the `default` branch of `Field`).  64-bit
floats are carried by their bit pattern; booleans by their raw byte. -/
inductive CField where
  | nothing
  | text (s : String)
  | date (n : Int)
  | time (n : Int)
  | float (bits : Nat)
  | int (n : Int)
  | uint (n : Nat)
  | bool (b : Nat)
  | untagged (t : Int)
deriving DecidableEq, Repr

/-- The dynamically typed Go value (`interface` value) produced by
`Row.Field`. -/
inductive GoValue where
  | nil
  | str (s : String)
  | i64 (n : Int)
  | u64 (n : Nat)
  | f64 (bits : Nat)
  | boolean (b : Bool)
deriving DecidableEq, Repr

/-- Go type assertion `v.(string)` (only evaluated where the tag proves it
succeeds). -/
def GoValue.asStr : GoValue → String
  | .str s => s
  | _ => ""

/-- Go type assertion `v.(int64)`. -/
def GoValue.asI64 : GoValue → Int
  | .i64 n => n
  | _ => 0

/-- Go type assertion `v.(uint64)`. -/
def GoValue.asU64 : GoValue → Nat
  | .u64 n => n
  | _ => 0

/-- Go type assertion `v.(float64)` (bit pattern). -/
def GoValue.asF64 : GoValue → Nat
  | .f64 bits => bits
  | _ => 0

/-- Go type assertion `v.(bool)`. -/
def GoValue.asBool : GoValue → Bool
  | .boolean b => b
  | _ => false

/-- Modelled from the spec: the external collaborator call
`nowdb_row_field` (rowFieldAt, section 6 of the spec), which for a valid
index yields the field's tag and payload and for an out-of-range index
yields the absent tag — gnow.go's own documentation of `Field` states
"If idx is out of range, NOTHING is returned". -/
def rowFieldC (fs : List CField) (idx : Int) : CField :=
  if h : 0 ≤ idx ∧ idx.toNat < fs.length then fs.get ⟨idx.toNat, h.2⟩
  else CField.nothing

/-- The Go `Row` as seen by the field-decoding methods: `cr` embeds the
row-buffer pointer by its pointee (`none` = nil pointer). -/
structure Row where
  cr : Option (List CField)
deriving DecidableEq, Repr

/-- `func (r *Row) Count() int`. -/
def Row.Count (r : Row) : Int :=
  match r.cr with
  | none => 0
  | some fs => (fs.length : Int)

/-- `func (r *Row) Field(idx int) (int, interface\x7b\x7d)`: the tag switch of
the source, each recognized tag reinterpreting the payload at its type,
the default branch yielding `(NOTHING, nil)`. -/
def Row.Field (r : Row) (idx : Int) : Int × GoValue :=
  match r.cr with
  | none => (NOTHING, GoValue.nil)
  | some fs =>
    match rowFieldC fs idx with
    | .nothing => (NOTHING, GoValue.nil)
    | .text s => (TEXT, GoValue.str s)
    | .date n => (DATE, GoValue.i64 n)
    | .time n => (TIME, GoValue.i64 n)
    | .float bits => (FLOAT, GoValue.f64 bits)
    | .int n => (INT, GoValue.i64 n)
    | .uint n => (UINT, GoValue.u64 n)
    | .bool b => (BOOL, GoValue.boolean (decide (b ≠ 0)))
    | .untagged _ => (NOTHING, GoValue.nil)

/-- `func (r *Row) String(idx int) (string, error)`. -/
def Row.String (r : Row) (idx : Int) : String × Option GoError :=
  let tv := Row.Field r idx
  if tv.1 = NOTHING then ("", some NULL)
  else if tv.1 ≠ TEXT then ("", some (GoError.typeError "not a string"))
  else (tv.2.asStr, none)

/-- `func (r *Row) intValue(idx int, isTime bool) (int64, error)`. -/
def Row.intValue (r : Row) (idx : Int) (isTime : Bool) : Int × Option GoError :=
  let tv := Row.Field r idx
  if tv.1 = NOTHING then (0, some NULL)
  else if isTime ∧ tv.1 ≠ TIME ∧ tv.1 ≠ DATE ∧ tv.1 ≠ INT then
    (0, some (GoError.typeError "not a time value"))
  else if ¬ isTime ∧ tv.1 ≠ INT then
    (0, some (GoError.typeError "not an int value"))
  else (tv.2.asI64, none)

/-- `func (r *Row) Time(idx int) (int64, error)`. -/
def Row.Time (r : Row) (idx : Int) : Int × Option GoError :=
  Row.intValue r idx true

/-- `func (r *Row) UInt(idx int) (uint64, error)`. -/
def Row.UInt (r : Row) (idx : Int) : Nat × Option GoError :=
  let tv := Row.Field r idx
  if tv.1 = NOTHING then (0, some NULL)
  else if tv.1 ≠ UINT then (0, some (GoError.typeError "not an uint value"))
  else (tv.2.asU64, none)

/-- `func (r *Row) Float(idx int) (float64, error)` (value as bit pattern). -/
def Row.Float (r : Row) (idx : Int) : Nat × Option GoError :=
  let tv := Row.Field r idx
  if tv.1 = NOTHING then (0, some NULL)
  else if tv.1 ≠ FLOAT then (0, some (GoError.typeError "not a float value"))
  else (tv.2.asF64, none)

/-- `func (r *Row) Bool(idx int) (bool, error)`. -/
def Row.Bool (r : Row) (idx : Int) : Bool × Option GoError :=
  let tv := Row.Field r idx
  if tv.1 = NOTHING then (false, some NULL)
  else if tv.1 ≠ BOOL then (false, some (GoError.typeError "not a bool value"))
  else (tv.2.asBool, none)

/-- `func (r *Row) Int(idx int) (int64, error)`. -/
def Row.Int (r : Row) (idx : Int) : Int × Option GoError :=
  Row.intValue r idx false

/-- A trivial concrete library: every call succeeds with code 0 and all
handle outputs are nil. -/
def unitDB : NowDB Unit where
  connect := fun _ _ _ _ _ w => (0, none, w)
  connectionClose := fun _ w => (0, w)
  connectionDestroy := fun _ w => w
  execStatement := fun _ _ w => (0, none, w)
  resultType := fun _ _ => 0
  resultStatus := fun _ _ => 0
  resultErrcode := fun _ _ => 0
  resultDetails := fun _ _ => none
  resultDestroy := fun _ w => w
  cursorOpen := fun _ w => (0, none, w)
  cursorRow := fun _ _ => none
  cursorClose := fun _ w => (0, w)
  rowNext := fun _ w => (0, w)
  cursorFetch := fun _ w => (0, w)

/-- A concrete library whose cursor fetch persistently reports
end-of-stream (code 8). -/
def eofDB : NowDB Unit :=
  { unitDB with cursorFetch := fun _ w => (8, w) }

/-- A concrete library whose cursor open fails with code 5. -/
def failOpenDB : NowDB Unit :=
  { unitDB with cursorOpen := fun _ w => (5, none, w) }

/-- A concrete library whose connection close fails with code 7. -/
def failCloseDB : NowDB Unit :=
  { unitDB with connectionClose := fun _ w => (7, w) }

/-- A concrete library where statement execution yields a result handle
whose status is the non-ok code 3. -/
def badStatusDB : NowDB Unit :=
  { unitDB with
    execStatement := fun _ _ w => (0, some 1, w)
    resultStatus := fun _ _ => 3
    resultErrcode := fun _ _ => 3
    resultDetails := fun _ _ => some "bad statement" }

theorem close_clears {ω : Type} (db : NowDB ω) (c : Connection) (w : ω) :
    (Connection.Close db c w).conn.cc = none := by
  unfold Connection.Close
  cases h : c.cc with
  | none => simpa using h
  | some a =>
    rcases hc : db.connectionClose a w with ⟨rc, w1⟩
    simp only [hc]
    split <;> rfl

theorem close_on_closed {ω : Type} (db : NowDB ω) (c : Connection) (w : ω) (h : c.cc = none) :
    Connection.Close db c w = { conn := c, err := none, calls := [], w := w } := by
  unfold Connection.Close
  rw [h]

/-- Claim C2: `Connect` never passes the user name or password to the
underlying `nowdb_connect` call (it passes nil credentials), so two calls
that agree on server and port but differ arbitrarily in `usr` and `pwd`
behave identically. -/
theorem connect_ignores_credentials {ω : Type} (db : NowDB ω) (g : Bool)
    (server port u1 pw1 u2 pw2 : String) (w : ω) :
    Connect db g server port u1 pw1 w = Connect db g server port u2 pw2 w := rfl

/-- Claim C7: after a first `Close()` (whether it succeeded or failed), a
second `Close()` on the same Connection returns no error, performs no C
release call, and leaves the connection unchanged. -/
theorem close_idempotent {ω : Type} (db : NowDB ω) (c : Connection) (w : ω) :
    (Connection.Close db (Connection.Close db c w).conn (Connection.Close db c w).w).err = none ∧
    (Connection.Close db (Connection.Close db c w).conn (Connection.Close db c w).w).calls = [] ∧
    (Connection.Close db (Connection.Close db c w).conn (Connection.Close db c w).w).conn =
      (Connection.Close db c w).conn := by
  rw [close_on_closed db _ _ (close_clears db c w)]
  exact ⟨rfl, rfl, rfl⟩

/-- Claim C6: when `Close()` is called on a live connection and the
server-side `nowdb_connection_close` fails, the local session handle is
nevertheless destroyed (`nowdb_connection_destroy` is called and `c.cc`
is cleared) and a ServerError carrying the numeric code is returned. -/
theorem close_failure_forces_destroy {ω : Type} (db : NowDB ω) (c : Connection) (h : Nat)
    (w : ω) (hcc : c.cc = some h) (hrc : (db.connectionClose h w).1 ≠ OK) :
    (Connection.Close db c w).conn.cc = none ∧
    (Connection.Close db c w).err =
      some (GoError.serverError (toString (db.connectionClose h w).1)) ∧
    CCall.connectionDestroy h ∈ (Connection.Close db c w).calls := by
  unfold Connection.Close
  rw [hcc]
  rcases hc : db.connectionClose h w with ⟨rc, w1⟩
  rw [hc] at hrc
  simp at hrc
  simp [hc, hrc]

theorem close_failure_forces_destroy_witness :
    ((failCloseDB.connectionClose 1 ()).1 ≠ OK) ∧
    ((Connection.Close failCloseDB { cc := some 1 } ()).conn.cc = none ∧
     (Connection.Close failCloseDB { cc := some 1 } ()).err =
       some (GoError.serverError (toString (failCloseDB.connectionClose 1 ()).1)) ∧
     CCall.connectionDestroy 1 ∈ (Connection.Close failCloseDB { cc := some 1 } ()).calls) :=
  ⟨by decide, close_failure_forces_destroy failCloseDB { cc := some 1 } 1 () rfl (by decide)⟩

/-- Claim C10: if `Open()` on a Cursor-kind Result fails in the underlying
`nowdb_cursor_open`, it returns a ClientError carrying the numeric code,
performs no release, and leaves the Result unchanged — so the Result
still owns its resource and a later `Destroy()` releases it. -/
theorem open_failure_keeps_resource {ω : Type} (db : NowDB ω) (r : Result) (hdl : Nat)
    (w : ω) (ht : r.t = cursorTag) (hcs : r.cs = some hdl)
    (hrc : (db.cursorOpen r.cs w).1 ≠ OK) :
    (Result.Open db r w).err =
      some (GoError.clientError (toString (db.cursorOpen r.cs w).1)) ∧
    (Result.Open db r w).cur = none ∧
    (Result.Open db r w).res = r ∧
    (Result.Open db r w).calls = [] ∧
    (Result.Destroy db (Result.Open db r w).res ((Result.Open db r w).w)).res.cs = none ∧
    (Result.Destroy db (Result.Open db r w).res ((Result.Open db r w).w)).calls =
      [CCall.resultDestroy hdl] := by
  unfold Result.Open
  rcases ho : db.cursorOpen r.cs w with ⟨rc, cc, w1⟩
  rw [ho] at hrc
  simp at hrc
  have hne : ¬ (r.t ≠ cursorTag ∧ r.t ≠ rowTag) := by
    intro hcon
    exact hcon.1 ht
  simp [hne, ht, hrc, Result.Destroy, hcs]

theorem open_failure_keeps_resource_witness :
    (({ cs := some 2, t := cursorTag } : Result).t = cursorTag) ∧
    (({ cs := some 2, t := cursorTag } : Result).cs = some 2) ∧
    ((failOpenDB.cursorOpen (some 2) ()).1 ≠ OK) ∧
    ((Result.Open failOpenDB { cs := some 2, t := cursorTag } ()).err =
       some (GoError.clientError (toString (failOpenDB.cursorOpen (some 2) ()).1)) ∧
     (Result.Open failOpenDB { cs := some 2, t := cursorTag } ()).res =
       { cs := some 2, t := cursorTag }) := by
  refine ⟨rfl, rfl, by decide, ?_⟩
  have h := open_failure_keeps_resource failOpenDB { cs := some 2, t := cursorTag } 2 ()
    rfl rfl (by decide)
  exact ⟨h.1, h.2.2.1⟩

/-- Claim C1, counterexample: on a SingleRow-kind Result on which `Open()`
has already succeeded, a second `Open()` does not fail with ClientError
"not a cursor" — it returns no error and does return a second Cursor.
`Open` clears `r.cs` but never clears the kind tag `r.t`, so the type
check passes again. -/
theorem open_twice_counterexample :
    (Result.Open unitDB (Result.Open unitDB { cs := some 1, t := rowTag } ()).res
        (Result.Open unitDB { cs := some 1, t := rowTag } ()).w).err = none ∧
    (Result.Open unitDB (Result.Open unitDB { cs := some 1, t := rowTag } ()).res
        (Result.Open unitDB { cs := some 1, t := rowTag } ()).w).cur =
      some { cc := none, row := none, first := true } := by
  constructor <;> rfl

/-- Claim C1 as amended: after a successful `Open()` on a SingleRow-kind
Result, the Result's resource is cleared but its kind tag is not, so a
second `Open()` passes the "not a cursor" check and succeeds, returning a
second, inert Cursor (nil row buffer, nil cursor resource) whose `Fetch`
returns EOF; the second call does not fail with ClientError
"not a cursor". -/
theorem open_twice_singlerow {ω : Type} (db : NowDB ω) (r : Result) (hdl : Nat) (w : ω)
    (ht : r.t = rowTag) (hcs : r.cs = some hdl) :
    (Result.Open db r w).err = none ∧
    (Result.Open db r w).res.cs = none ∧
    (Result.Open db r w).res.t = rowTag ∧
    (Result.Open db (Result.Open db r w).res (Result.Open db r w).w).err = none ∧
    (Result.Open db (Result.Open db r w).res (Result.Open db r w).w).cur =
      some { cc := none, row := none, first := true } ∧
    (∀ w2, (Cursor.Fetch db { cc := none, row := none, first := true } w2).err = some EOF ∧
           (Cursor.Fetch db { cc := none, row := none, first := true } w2).row = none) := by
  rcases r with ⟨cs, t⟩
  simp only at ht hcs
  subst ht
  subst hcs
  refine ⟨?_, ?_, ?_, ?_, ?_, fun w2 => ⟨rfl, rfl⟩⟩ <;>
    simp +decide [Result.Open, rowTag, cursorTag]

theorem open_twice_singlerow_witness :
    (({ cs := some 1, t := rowTag } : Result).t = rowTag) ∧
    (({ cs := some 1, t := rowTag } : Result).cs = some 1) ∧
    ((Result.Open unitDB (Result.Open unitDB { cs := some 1, t := rowTag } ()).res
        (Result.Open unitDB { cs := some 1, t := rowTag } ()).w).err = none) :=
  ⟨rfl, rfl, (open_twice_singlerow unitDB { cs := some 1, t := rowTag } 1 () rfl rfl).2.2.2.1⟩

/-- Claim C5: `Execute` yields a Result or an error but never both; every
error it returns is a ServerError; and on a non-ok server status the
just-acquired result resource is destroyed before the error is
returned. -/
theorem execute_result_xor_error {ω : Type} (db : NowDB ω) (c : Connection) (s : String)
    (w : ω) :
    ((Connection.Execute db c s w).res.isSome ↔ (Connection.Execute db c s w).err = none) ∧
    (∀ e, (Connection.Execute db c s w).err = some e →
       (∃ m, e = GoError.serverError m) ∧ (Connection.Execute db c s w).res = none) ∧
    (∀ rc h w1, db.execStatement c.cc s w = (rc, some h, w1) → rc = OK →
       db.resultStatus h w1 ≠ OK →
       (Connection.Execute db c s w).err.isSome ∧
       CCall.resultDestroy h ∈ (Connection.Execute db c s w).calls) := by
  unfold Connection.Execute
  rcases he : db.execStatement c.cc s w with ⟨rc, cr, w1⟩
  refine ⟨?_, ?_, ?_⟩
  · cases cr with
    | none => simp
    | some h =>
      by_cases hrc : rc ≠ OK
      · simp [hrc]
      · by_cases hst : db.resultStatus h w1 ≠ OK <;> simp [hrc, hst]
  · intro e hme
    cases cr with
    | none =>
      simp at hme
      exact ⟨⟨toString rc, hme.symm⟩, by simp⟩
    | some h =>
      by_cases hrc : rc ≠ OK
      · simp [hrc] at hme ⊢
        exact ⟨toString rc, hme.symm⟩
      · by_cases hst : db.resultStatus h w1 ≠ OK
        · simp [hrc, hst, r2err] at hme ⊢
          exact ⟨_, hme.symm⟩
        · simp [hrc, hst] at hme
  · intro rc2 h2 w2 heq hok hst
    injection heq with h1 h23
    injection h23 with h2eq h3eq
    subst hok
    subst h1
    subst h2eq
    subst h3eq
    simp only [OK] at hst
    simp +decide [hst, Result.Destroy, OK]

theorem execute_result_xor_error_witness :
    (badStatusDB.execStatement none "select" () = ((0 : Int), some 1, ())) ∧
    ((0 : Int) = OK) ∧
    (badStatusDB.resultStatus 1 () ≠ OK) ∧
    ((Connection.Execute badStatusDB { cc := none } "select" ()).err.isSome ∧
     CCall.resultDestroy 1 ∈ (Connection.Execute badStatusDB { cc := none } "select" ()).calls) :=
  ⟨rfl, rfl, by decide,
   (execute_result_xor_error badStatusDB { cc := none } "select" ()).2.2 0 1 () rfl rfl
     (by decide)⟩

theorem rowFieldC_get (fs : List CField) (j : Fin fs.length) :
    rowFieldC fs ((j : Nat) : Int) = fs.get j := by
  unfold rowFieldC
  have hc : 0 ≤ ((j : Nat) : Int) ∧ (((j : Nat) : Int)).toNat < fs.length := by
    refine ⟨Int.natCast_nonneg _, ?_⟩
    simp
  rw [dif_pos hc]
  congr 1

theorem rowFieldC_oob (fs : List CField) (idx : Int)
    (h : idx < 0 ∨ (fs.length : Int) ≤ idx) : rowFieldC fs idx = CField.nothing := by
  unfold rowFieldC
  rw [dif_neg]
  omega

/-- Claim C8: `Field(idx)` on a nil row buffer, on an index outside
`[0, Count())`, or on a field tagged null, returns the absent tag
`NOTHING` with the null value — it never faults (the embedding is a total
function). -/
theorem field_absent_safe (r : Row) (idx : Int) :
    (r.cr = none → Row.Count r = 0 ∧ Row.Field r idx = (NOTHING, GoValue.nil)) ∧
    (idx < 0 ∨ Row.Count r ≤ idx → Row.Field r idx = (NOTHING, GoValue.nil)) ∧
    (∀ fs, r.cr = some fs → ∀ j : Fin fs.length, fs.get j = CField.nothing →
       Row.Field r ((j : Nat) : Int) = (NOTHING, GoValue.nil)) := by
  refine ⟨?_, ?_, ?_⟩
  · intro h
    simp [Row.Count, Row.Field, h]
  · intro h
    rcases hcr : r.cr with _ | fs
    · simp [Row.Field, hcr]
    · simp only [Row.Count, hcr] at h
      simp [Row.Field, hcr, rowFieldC_oob fs idx h]
  · intro fs hcr j hj
    simp only [List.get_eq_getElem] at hj
    simp [Row.Field, hcr, rowFieldC_get fs j, hj]

theorem field_absent_safe_witness :
    (((3 : Int) < 0 ∨ Row.Count { cr := some [CField.int 7] } ≤ 3) ∧
     Row.Field { cr := some [CField.int 7] } 3 = (NOTHING, GoValue.nil)) ∧
    (({ cr := some [CField.nothing] } : Row).cr = some [CField.nothing] ∧
     Row.Field { cr := some [CField.nothing] } ((0 : Nat) : Int) = (NOTHING, GoValue.nil)) :=
  ⟨⟨by decide, (field_absent_safe { cr := some [CField.int 7] } 3).2.1 (by decide)⟩,
   ⟨rfl, (field_absent_safe { cr := some [CField.nothing] } 0).2.2 [CField.nothing] rfl
      ⟨0, by decide⟩ rfl⟩⟩

theorem field_shape (r : Row) (idx : Int) :
    Row.Field r idx = (NOTHING, GoValue.nil) ∨
    (∃ s, Row.Field r idx = (TEXT, GoValue.str s)) ∨
    (∃ n, Row.Field r idx = (DATE, GoValue.i64 n)) ∨
    (∃ n, Row.Field r idx = (TIME, GoValue.i64 n)) ∨
    (∃ b, Row.Field r idx = (FLOAT, GoValue.f64 b)) ∨
    (∃ n, Row.Field r idx = (INT, GoValue.i64 n)) ∨
    (∃ n, Row.Field r idx = (UINT, GoValue.u64 n)) ∨
    (∃ b, Row.Field r idx = (BOOL, GoValue.boolean b)) := by
  rcases hcr : r.cr with _ | fs
  · exact Or.inl (by simp [Row.Field, hcr])
  · cases hf : rowFieldC fs idx with
    | nothing => exact Or.inl (by simp [Row.Field, hcr, hf])
    | text s => exact Or.inr (Or.inl ⟨s, by simp [Row.Field, hcr, hf]⟩)
    | date n => exact Or.inr (Or.inr (Or.inl ⟨n, by simp [Row.Field, hcr, hf]⟩))
    | time n => exact Or.inr (Or.inr (Or.inr (Or.inl ⟨n, by simp [Row.Field, hcr, hf]⟩)))
    | float b => exact Or.inr (Or.inr (Or.inr (Or.inr (Or.inl ⟨b, by
        simp [Row.Field, hcr, hf]⟩))))
    | int n => exact Or.inr (Or.inr (Or.inr (Or.inr (Or.inr (Or.inl ⟨n, by
        simp [Row.Field, hcr, hf]⟩)))))
    | uint n => exact Or.inr (Or.inr (Or.inr (Or.inr (Or.inr (Or.inr (Or.inl ⟨n, by
        simp [Row.Field, hcr, hf]⟩))))))
    | bool b => exact Or.inr (Or.inr (Or.inr (Or.inr (Or.inr (Or.inr (Or.inr
        ⟨decide (b ≠ 0), by simp [Row.Field, hcr, hf]⟩))))))
    | untagged t => exact Or.inl (by simp [Row.Field, hcr, hf])

/-- Claim C9: each typed accessor calls `Field`, returns the NULL error
when the tag is absent, a type-mismatch TypeError when the tag does not
match the requested type (`Time` accepting any of time, date, integer),
and otherwise the decoded value with no error. -/
theorem typed_accessors (r : Row) (idx : Int) :
    ((Row.Field r idx).1 = NOTHING →
       Row.String r idx = ("", some NULL) ∧ Row.Time r idx = (0, some NULL) ∧
       Row.Int r idx = (0, some NULL) ∧ Row.UInt r idx = (0, some NULL) ∧
       Row.Float r idx = (0, some NULL) ∧ Row.Bool r idx = (false, some NULL)) ∧
    ((Row.Field r idx).1 = TEXT →
       ∃ s, Row.Field r idx = (TEXT, GoValue.str s) ∧ Row.String r idx = (s, none)) ∧
    ((Row.Field r idx).1 ≠ NOTHING → (Row.Field r idx).1 ≠ TEXT →
       Row.String r idx = ("", some (GoError.typeError "not a string"))) ∧
    ((Row.Field r idx).1 = TIME ∨ (Row.Field r idx).1 = DATE ∨ (Row.Field r idx).1 = INT →
       ∃ n, (Row.Field r idx).2 = GoValue.i64 n ∧ Row.Time r idx = (n, none)) ∧
    ((Row.Field r idx).1 ≠ NOTHING →
     ¬((Row.Field r idx).1 = TIME ∨ (Row.Field r idx).1 = DATE ∨ (Row.Field r idx).1 = INT) →
       Row.Time r idx = (0, some (GoError.typeError "not a time value"))) ∧
    ((Row.Field r idx).1 = INT →
       ∃ n, Row.Field r idx = (INT, GoValue.i64 n) ∧ Row.Int r idx = (n, none)) ∧
    ((Row.Field r idx).1 ≠ NOTHING → (Row.Field r idx).1 ≠ INT →
       Row.Int r idx = (0, some (GoError.typeError "not an int value"))) ∧
    ((Row.Field r idx).1 = UINT →
       ∃ n, Row.Field r idx = (UINT, GoValue.u64 n) ∧ Row.UInt r idx = (n, none)) ∧
    ((Row.Field r idx).1 ≠ NOTHING → (Row.Field r idx).1 ≠ UINT →
       Row.UInt r idx = (0, some (GoError.typeError "not an uint value"))) ∧
    ((Row.Field r idx).1 = FLOAT →
       ∃ b, Row.Field r idx = (FLOAT, GoValue.f64 b) ∧ Row.Float r idx = (b, none)) ∧
    ((Row.Field r idx).1 ≠ NOTHING → (Row.Field r idx).1 ≠ FLOAT →
       Row.Float r idx = (0, some (GoError.typeError "not a float value"))) ∧
    ((Row.Field r idx).1 = BOOL →
       ∃ b, Row.Field r idx = (BOOL, GoValue.boolean b) ∧ Row.Bool r idx = (b, none)) ∧
    ((Row.Field r idx).1 ≠ NOTHING → (Row.Field r idx).1 ≠ BOOL →
       Row.Bool r idx = (false, some (GoError.typeError "not a bool value"))) := by
  rcases field_shape r idx with hF | ⟨s, hF⟩ | ⟨n, hF⟩ | ⟨n, hF⟩ | ⟨b, hF⟩ | ⟨n, hF⟩ |
    ⟨n, hF⟩ | ⟨b, hF⟩ <;>
    simp +decide [hF, Row.String, Row.Time, Row.Int, Row.UInt, Row.Float, Row.Bool,
      Row.intValue, NULL, NOTHING, TEXT, DATE, TIME, FLOAT, INT, UINT, BOOL,
      GoValue.asStr, GoValue.asI64, GoValue.asU64, GoValue.asF64, GoValue.asBool]

theorem typed_accessors_witness :
    ((Row.Field { cr := some [CField.time 42] } 0).1 = TIME ∨
     (Row.Field { cr := some [CField.time 42] } 0).1 = DATE ∨
     (Row.Field { cr := some [CField.time 42] } 0).1 = INT) ∧
    (∃ n, (Row.Field { cr := some [CField.time 42] } 0).2 = GoValue.i64 n ∧
       Row.Time { cr := some [CField.time 42] } 0 = (n, none)) ∧
    ((Row.Field { cr := some [CField.float 5] } 0).1 ≠ NOTHING ∧
     (Row.Field { cr := some [CField.float 5] } 0).1 ≠ TEXT) ∧
    Row.String { cr := some [CField.float 5] } 0 =
      ("", some (GoError.typeError "not a string")) :=
  ⟨Or.inl (by decide),
   (typed_accessors { cr := some [CField.time 42] } 0).2.2.2.1 (Or.inl (by decide)),
   ⟨by decide, by decide⟩,
   (typed_accessors { cr := some [CField.float 5] } 0).2.2.1 (by decide) (by decide)⟩

/-- Claim C3, counterexample: gnow.go does not keep EOFError and NullError
as separate error kinds.  The error returned by an exhausted cursor's
`Fetch` is the value `EOF`, which is built with the `ClientError`
constructor ("end-of-file"), and the error returned by `String(0)` on an
absent field is the value `NULL`, which is built with the `TypeError`
constructor ("NULL") — contradicting "an EOFError that is not a
ClientError" and "a NullError that is not a TypeError". -/
theorem error_kinds_counterexample :
    (Cursor.Fetch unitDB { cc := none, row := none, first := false } ()).err =
      some (GoError.clientError "end-of-file") ∧
    (Row.String { cr := some [CField.nothing] } 0).2 = some (GoError.typeError "NULL") := by
  constructor <;> decide

/-- Claim C3 as amended: gnow.go defines three pairwise disjoint error
kinds — ClientError, ServerError, TypeError.  Cursor exhaustion is
reported with the distinguished ClientError value `EOF` ("end-of-file"),
not a separate EOFError kind, and it is not a ServerError; absent-field
access is reported with the distinguished TypeError value `NULL`
("NULL"), not a separate NullError kind; `String(0)` on a float field
returns the TypeError "not a string", which is a different value than
`NULL`. -/
theorem error_kinds_amended (s1 s2 s3 : String) :
    GoError.clientError s1 ≠ GoError.serverError s2 ∧
    GoError.clientError s1 ≠ GoError.typeError s3 ∧
    GoError.serverError s2 ≠ GoError.typeError s3 ∧
    EOF = GoError.clientError "end-of-file" ∧
    NULL = GoError.typeError "NULL" ∧
    (Cursor.Fetch unitDB { cc := none, row := none, first := false } ()).err = some EOF ∧
    (∀ m, EOF ≠ GoError.serverError m) ∧
    (Row.String { cr := some [CField.nothing] } 0).2 = some NULL ∧
    (Row.String { cr := some [CField.float 0] } 0).2 =
      some (GoError.typeError "not a string") ∧
    NULL ≠ GoError.typeError "not a string" := by
  refine ⟨by simp, by simp, by simp, rfl, rfl, by decide, ?_, by decide, by decide, by decide⟩
  intro m
  simp [EOF]

theorem fetchFromCursor_eof {ω : Type} (db : NowDB ω) (c : Cursor) (acc : List CCall)
    (w : ω) (h : (fetchFromCursor db c acc w).err = some EOF) :
    (fetchFromCursor db c acc w).cur = c ∧ (fetchFromCursor db c acc w).row = none := by
  rcases hcc : c.cc with _ | hc
  · simp [fetchFromCursor, hcc]
  · rcases hf : db.cursorFetch hc w with ⟨rc0, w1⟩
    simp only [fetchFromCursor, hcc, hf] at h ⊢
    by_cases h1 : (if rc0 = OK then db.resultErrcode hc w1 else rc0) ≠ OK
    · by_cases h2 : (if rc0 = OK then db.resultErrcode hc w1 else rc0) = eofCode
      · rw [if_pos h1, if_pos h2]
        exact ⟨rfl, rfl⟩
      · rw [if_pos h1, if_neg h2] at h
        simp [r2err, EOF] at h
    · rw [if_neg h1] at h
      simp at h

/-- Claim C4: once a Cursor has been closed or exhausted, every subsequent
`Fetch()` returns EOFError and never a Row.  Part 1: `Close()` clears both
the row buffer and the cursor resource.  Part 2: a `Fetch()` that returned
EOF leaves the row buffer cleared and the cursor resource unchanged, so
(given that the collaborator, once it has reported the end-of-stream code,
keeps reporting it — `Exhausted`) the precondition of part 3 is
re-established.  Part 3: from such a state, `Fetch()` returns EOF, no Row,
and leaves the Cursor unchanged — hence every later `Fetch()` does the
same, and never returns a ServerError or a Row. -/
theorem fetch_after_termination {ω : Type} (db : NowDB ω) (c : Cursor) (w : ω) :
    ((Cursor.Close db c w).cur.row = none ∧ (Cursor.Close db c w).cur.cc = none) ∧
    ((Cursor.Fetch db c w).err = some EOF →
       (Cursor.Fetch db c w).cur.row = none ∧ (Cursor.Fetch db c w).cur.cc = c.cc) ∧
    (Exhausted db c →
       (Cursor.Fetch db c w).err = some EOF ∧ (Cursor.Fetch db c w).row = none ∧
       (Cursor.Fetch db c w).cur = c) := by
  refine ⟨?_, ?_, ?_⟩
  · rcases hrow : c.row with _ | rh <;> rcases hcc : c.cc with _ | hc
    · simp [Cursor.Close, hrow, hcc]
    · rcases hcl : db.cursorClose hc w with ⟨rc, w2⟩
      simp only [Cursor.Close, hrow]
      simp [hcc, hcl, hrow]
      split <;> simp
    · simp [Cursor.Close, hrow, hcc]
    · rcases hcl : db.cursorClose hc w with ⟨rc, w2⟩
      simp only [Cursor.Close, hrow]
      simp [hcc, hcl]
      split <;> simp
  · intro he
    rcases hrow : c.row with _ | rh
    · simp only [Cursor.Fetch, hrow] at he ⊢
      rcases fetchFromCursor_eof db _ _ _ he with ⟨h1, _⟩
      rw [h1, hrow]
      exact ⟨rfl, rfl⟩
    · simp only [Cursor.Fetch, hrow] at he ⊢
      by_cases hfst : c.first = true
      · rw [if_pos hfst] at he
        simp at he
      · rw [if_neg hfst] at he ⊢
        rcases hn : db.rowNext rh w with ⟨rc, w1⟩
        simp only [hn] at he ⊢
        by_cases hrc : rc ≠ OK
        · rw [if_pos hrc] at he ⊢
          by_cases hcc : c.cc = none
          · rw [if_pos hcc] at he ⊢
            rcases fetchFromCursor_eof db _ _ _ he with ⟨h1, _⟩
            rw [h1]
            exact ⟨rfl, rfl⟩
          · rw [if_neg hcc] at he ⊢
            rcases fetchFromCursor_eof db _ _ _ he with ⟨h1, _⟩
            rw [h1]
            exact ⟨rfl, rfl⟩
        · rw [if_neg hrc] at he
          simp at he
  · intro hex
    rcases hex with ⟨hrow, heof⟩
    simp only [Cursor.Fetch, hrow]
    rcases hcc : c.cc with _ | hc
    · simp [fetchFromCursor, hcc]
    · have he := heof hc hcc w
      unfold effFetchRc at he
      rcases hf : db.cursorFetch hc w with ⟨rc0, w1⟩
      rw [hf] at he
      simp only at he
      simp only [fetchFromCursor, hcc, hf]
      rw [he]
      rw [if_pos (show eofCode ≠ OK by decide), if_pos rfl]
      exact ⟨rfl, rfl, rfl⟩

theorem fetch_after_termination_witness :
    Exhausted eofDB { cc := some 0, row := none, first := false } ∧
    (Cursor.Fetch eofDB { cc := some 0, row := none, first := false } ()).err = some EOF ∧
    (Cursor.Fetch eofDB { cc := some 0, row := none, first := false } ()).row = none := by
  have hex : Exhausted eofDB { cc := some 0, row := none, first := false } := by
    refine ⟨rfl, ?_⟩
    intro h hh w
    injection hh with h0
    subst h0
    rfl
  have hmain := fetch_after_termination eofDB { cc := some 0, row := none, first := false } ()
  exact ⟨hex, (hmain.2.2 hex).1, (hmain.2.2 hex).2.1⟩
